import Mathlib

/-!
Verification development for the aioesphomeserver native-API core.

This file gives a shallow embedding, in Lean, of the parts of the code base
that the specification's claims talk about: the varint codec and the
connection/server dispatch machinery of native_api_server.py, the entity
registry of device.py, the setters of switch.py, siren.py and select.py, and
the object-id / unique-id derivation of basic_entity.py.  Python byte strings
are lists of naturals below 256, a stream reader is a list of its remaining
bytes (the empty list standing for a reader at EOF), raised exceptions are
explicit error results, and the mutation of an object's attributes is explicit
state passing.  The theorems at the end of the file settle the specification's
claims against these definitions.
-/

set_option maxRecDepth 10000

namespace Aioesphome

/-! ### Varint codec, from native_api_server.py -/

/-- Loop of the encoder `_varuint_to_bytes` (native_api_server.py, lines
53-61): while the value is nonzero, emit its low 7 bits, with the continuation
bit 0x80 set whenever more bits remain. -/
def varuintLoop (value : Nat) : List Nat :=
  if h : value = 0 then []
  else
    let temp := value &&& 0x7F
    let value2 := value >>> 7
    if value2 = 0 then temp :: varuintLoop value2
    else (temp ||| 0x80) :: varuintLoop value2
termination_by value
decreasing_by
  all_goals
    simp only [Nat.shiftRight_eq_div_pow]
    exact Nat.div_lt_self (Nat.pos_of_ne_zero h) (by norm_num)

/-- The encoder `_varuint_to_bytes` (native_api_server.py, lines 48-61): a
value of at most 0x7F is a single byte, anything larger goes through the
loop. -/
def varuintToBytes (value : Nat) : List Nat :=
  if value ≤ 0x7F then [value] else varuintLoop value

/-- Loop of the decoder `NativeApiConnection._read_varuint`
(native_api_server.py, lines 199-213): read bytes until one arrives without
the continuation bit, accumulating 7 bits at a time; an exhausted source
yields the sentinel -1.  Returns the decoded value and the unread rest of the
source. -/
def readVaruintLoop : List Nat → Nat → Nat → Int × List Nat
  | [], _, _ => (-1, [])
  | val :: rest, result, bitpos =>
    let result2 := result ||| ((val &&& 0x7F) <<< bitpos)
    if val &&& 0x80 = 0 then ((result2 : Int), rest)
    else readVaruintLoop rest result2 (bitpos + 7)

/-- The decoder `_read_varuint`, started with a zero accumulator and bit
position, as in the source. -/
def readVaruint (src : List Nat) : Int × List Nat :=
  readVaruintLoop src 0 0


/-! ### Device entity registry, from device.py -/

/-- Entity as the registry of device.py sees it.  The field `eid` renders
Python object identity (device.py compares entities with `==`, which is
identity for these classes); `objectId` is the resolved `object_id` property;
`key` is the `key` attribute, `none` until registration assigns it. -/
structure RegEntity where
  eid : Nat
  objectId : String
  key : Option Nat
deriving DecidableEq, Repr

/-- The registry state of a `Device`: its ordered `entities` list. -/
structure DeviceReg where
  entities : List RegEntity
deriving DecidableEq, Repr

/-- Outcome of one `Device.add_entity` call (device.py, lines 156-173):
the device state after the call, the entity object after the call (its
`device` back-reference and `key` attribute are assigned before the duplicate
check, so they are mutated even on failure), and the raised `ValueError`, if
any.  On a raise the device's entity list is untouched. -/
structure AddResult where
  device : DeviceReg
  entity : RegEntity
  error : Option String
deriving DecidableEq, Repr

/-- Embedding of `Device.add_entity` (device.py, lines 156-173): assign
`key := count_before + 1`, then raise on a duplicate `object_id`, else
append. -/
def addEntity (d : DeviceReg) (e0 : RegEntity) : AddResult :=
  let e := { e0 with key := some (d.entities.length + 1) }
  if (d.entities.filter (fun x => x.objectId == e.objectId)).length > 0 then
    { device := d, entity := e,
      error := some ("Duplicate object_id: " ++ e.objectId) }
  else
    { device := { d with entities := d.entities ++ [e] }, entity := e,
      error := none }

/-- A sequence of `add_entity` calls on one device; a raised `ValueError`
aborts the sequence, as an uncaught exception would. -/
def addAllE (d : DeviceReg) : List RegEntity → Except String DeviceReg
  | [] => .ok d
  | e :: rest =>
    let r := addEntity d e
    match r.error with
    | some msg => .error msg
    | none => addAllE r.device rest

/-- Python list indexing `l[i]`, with negative indices counting from the end;
`none` is a raised `IndexError`. -/
def pyGet {α : Type} (l : List α) (i : Int) : Option α :=
  if 0 ≤ i then l.get? i.toNat
  else if 0 ≤ i + l.length then l.get? (i + l.length).toNat
  else none

/-- Embedding of `Device.get_entity_by_key` (device.py, lines 190-202) on an entity list:
`key > len(entities)` answers `None`; otherwise the code returns
`entities[key - 1]`, with Python indexing semantics (an `Except.error` is a
raised `IndexError`). -/
def getEntityByKeyL {α : Type} (l : List α) (key : Int) : Except Unit (Option α) :=
  if key > l.length then .ok none
  else
    match pyGet l (key - 1) with
    | some e => .ok (some e)
    | none => .error ()

/-- Embedding of `Device.get_entity_by_key` on a device. -/
def getEntityByKey (d : DeviceReg) (key : Int) : Except Unit (Option RegEntity) :=
  getEntityByKeyL d.entities key

/-- Delivery loop of `Device.publish` (device.py, lines 141-154): the entities
on which `handle` is invoked, in registry order.  An entity is skipped when it
is the publisher itself (`publisher == entity` is object identity, rendered by
`eid`) or when its `can_handle(key, message)` answers false; `canH` stands for
that answer, with the key and message of the call already applied. -/
def publishTargets (entities : List RegEntity) (canH : RegEntity → Bool)
    (publisher : RegEntity) : List RegEntity :=
  match entities with
  | [] => []
  | e :: rest =>
    if publisher.eid = e.eid then publishTargets rest canH publisher
    else if canH e then e :: publishTargets rest canH publisher
    else publishTargets rest canH publisher

/-! ### Wire messages

Incoming request messages (the protobuf classes of aioesphomeapi that
native_api_server.py dispatches on) and outgoing response messages, with the
fields the dispatch code reads or sets.  Protobuf fields that no modelled code
touches are omitted. -/

inductive InMsg where
  | helloRequest
  | connectRequest
  | disconnectRequest
  | subscribeLogsRequest (level : Nat)
  | pingRequest
  | subscribeStatesRequest
  | subscribeHomeassistantServicesRequest
  | subscribeHomeAssistantStatesRequest
  | listEntitiesRequest
  | deviceInfoRequest
  | switchCommandRequest (key : Nat) (state : Bool)
deriving DecidableEq, Repr

inductive OutMsg where
  | helloResponse (apiVersionMajor apiVersionMinor : Nat)
  | connectResponse
  | disconnectResponse
  | subscribeLogsResponse (level : Nat) (message : String)
  | pingResponse
  | switchStateResponse (key : Nat) (state : Bool)
  | sirenStateResponse (key : Nat) (state : Bool)
  | selectStateResponse (key : Nat) (state : String) (missingState : Bool)
  | listEntitiesSwitchResponse (objectId : String) (key : Nat) (name : String)
  | listEntitiesDoneResponse
  | deviceInfoResponse (name macAddress : String)
deriving DecidableEq, Repr

/-- State frames are the per-entity state response messages; the subscription
replay and the state-change broadcast send exactly these. -/
def isStateFrame : OutMsg → Bool
  | .switchStateResponse _ _ => true
  | .sirenStateResponse _ _ => true
  | .selectStateResponse _ _ _ => true
  | _ => false

/-! ### Entity setters, from switch.py, siren.py and select.py

Each setter returns the new state attributes and the list of `state_change`
publishes it performed (`notify_state_change` publishes the freshly built
state response, basic_entity.py lines 187-195). -/

/-- Embedding of `SwitchEntity.set_state` (switch.py, lines 90-101): store the value, and
notify only when it differs from the old state. -/
def switchSetState (key : Nat) (state : Bool) (val : Bool) :
    Bool × List OutMsg :=
  let oldState := state
  let state2 := val
  if val ≠ oldState then (state2, [.switchStateResponse key state2])
  else (state2, [])

/-- Embedding of `SirenEntity.set_state` (siren.py, lines 87-95): store the value and
notify unconditionally. -/
def sirenSetState (key : Nat) (state : Bool) (val : Bool) :
    Bool × List OutMsg :=
  let state2 := val
  (state2, [.sirenStateResponse key state2])

/-- Embedding of `SelectEntity.set_state` (select.py, lines 85-94): store the value, clear
`missing_state`, and notify unconditionally. -/
def selectSetState (key : Nat) (state : String) (missingState : Bool)
    (val : String) : (String × Bool) × List OutMsg :=
  let state2 := val
  let missing2 := false
  ((state2, missing2), [.selectStateResponse key state2 missing2])

/-! ### Connection and server state, from native_api_server.py

`_clients` is a Python set; its iteration order is rendered by a list, and
each connection is identified by its position in that list.  `writeOk` models
whether a `write_message` on that connection's transport succeeds; a false
value makes the write raise, as a broken socket would. -/

structure Client where
  subLogs : Bool
  subStates : Bool
  writeOk : Bool
deriving DecidableEq, Repr

/-- The entities the protocol-level claims need: `SwitchEntity` instances
(with their name, resolved object id, registration key and `_state`), and the
`NativeApiServer` / `WebServer` pseudo-entities registered by `Device.run`. -/
inductive PEntity where
  | switch (name objectId : String) (key : Nat) (state : Bool)
  | server
  | web
deriving DecidableEq, Repr

/-- The shared system state: the device identity and entity list, the
server's client set, and the web server's SSE queue. -/
structure Sys where
  devName : String
  devMac : String
  entities : List PEntity
  clients : List Client
  webQueue : List (String × String)
deriving DecidableEq, Repr

/-- Method `build_state_response` per entity: a switch answers a
`SwitchStateResponse` (switch.py, lines 69-79); the server and web
pseudo-entities answer `None` (native_api_server.py lines 355-359,
web_server.py lines 127-131). -/
def buildStateResponse : PEntity → Option OutMsg
  | .switch _ _ key state => some (.switchStateResponse key state)
  | .server => none
  | .web => none

/-- Method `build_list_entities_response` per entity: a switch answers a
`ListEntitiesSwitchResponse` (switch.py, lines 51-67); the pseudo-entities
answer `None`. -/
def buildListEntitiesResponse : PEntity → Option OutMsg
  | .switch name objectId key _ => some (.listEntitiesSwitchResponse objectId key name)
  | .server => none
  | .web => none

/-- Method `state_json` per entity (switch.py, lines 103-119; the pseudo-entities
answer an empty JSON object). -/
def stateJson : PEntity → String
  | .switch name objectId _ state =>
      "\x7b\"id\": \"switch-" ++ objectId ++ "\", \"name\": \"" ++ name ++
      "\", \"state\": \"" ++ (if state then "ON" else "OFF") ++
      "\", \"value\": " ++ (if state then "true" else "false") ++ "\x7d"
  | .server => "\x7b\x7d"
  | .web => "\x7b\x7d"

/-- A message passed through `Device.publish`: an entity command forwarded
under the `client_request` key, a state response under `state_change`, or a
`(level, text)` tuple under `log`. -/
inductive PubMsg where
  | cmd (m : InMsg)
  | state (m : OutMsg)
  | logEvt (level : Nat) (text : String)
deriving DecidableEq, Repr

/-- The `key` protobuf field of an outgoing message (0, the protobuf default,
when the schema has no key). -/
def stateKey : OutMsg → Nat
  | .switchStateResponse key _ => key
  | .sirenStateResponse key _ => key
  | .selectStateResponse key _ _ => key
  | _ => 0

/-- The `.key` attribute read by `WebServer.handle`; a log tuple has none
(reading it raises `AttributeError`). -/
def pubMsgKey : PubMsg → Option Nat
  | .cmd (.switchCommandRequest key _) => some key
  | .cmd _ => some 0
  | .state m => some (stateKey m)
  | .logEvt _ _ => none

/-- Content of the log line `handle_next_message` emits for a received
message. -/
def msgLogText : InMsg → String
  | .helloRequest => "HelloRequest"
  | .connectRequest => "ConnectRequest"
  | .disconnectRequest => "DisconnectRequest"
  | .subscribeLogsRequest _ => "SubscribeLogsRequest"
  | .pingRequest => "PingRequest"
  | .subscribeStatesRequest => "SubscribeStatesRequest"
  | .subscribeHomeassistantServicesRequest => "SubscribeHomeassistantServicesRequest"
  | .subscribeHomeAssistantStatesRequest => "SubscribeHomeAssistantStatesRequest"
  | .listEntitiesRequest => "ListEntitiesRequest"
  | .deviceInfoRequest => "DeviceInfoRequest"
  | .switchCommandRequest _ _ => "SwitchCommandRequest"

/-- A `write_message` to the client at index `i`: the frame written (tagged
with the receiving connection), or a raised transport error. -/
def writeTo (sys : Sys) (i : Nat) (m : OutMsg) : List (Nat × OutMsg) × Bool :=
  match sys.clients.get? i with
  | some c => if c.writeOk then ([(i, m)], false) else ([], true)
  | none => ([], true)

/-- Replace the client at index `i` by `f` of it. -/
def setClientAt (sys : Sys) (i : Nat) (f : Client → Client) : Sys :=
  match sys.clients.get? i with
  | some c => { sys with clients := sys.clients.set i (f c) }
  | none => sys

/-- Loop of `NativeApiServer.log` and of the `log` branch of
`NativeApiServer.handle` (native_api_server.py lines 245-254 and 339-347):
write `m` to every log-subscribed client, starting at index `i`; a failing
write raises out of the loop, so later clients are not served. -/
def logsLoopFrom (m : OutMsg) : Nat → List Client → List (Nat × OutMsg) × Bool
  | _, [] => ([], false)
  | i, c :: rest =>
    if c.subLogs then
      if c.writeOk then
        let (ws, r) := logsLoopFrom m (i + 1) rest
        ((i, m) :: ws, r)
      else ([], true)
    else logsLoopFrom m (i + 1) rest

/-- Loop of the `state_change` branch of `NativeApiServer.handle`
(native_api_server.py, lines 334-337): write the state frame to every
states-subscribed client, starting at index `i`; there is no exception
handling around the write, so a failing write raises out of the loop and
later clients are not served. -/
def statesLoopFrom (m : OutMsg) : Nat → List Client → List (Nat × OutMsg) × Bool
  | _, [] => ([], false)
  | i, c :: rest =>
    if c.subStates then
      if c.writeOk then
        let (ws, r) := statesLoopFrom m (i + 1) rest
        ((i, m) :: ws, r)
      else ([], true)
    else statesLoopFrom m (i + 1) rest

/-- Embedding of `NativeApiServer.log`: a `SubscribeLogsResponse` carrying the text goes
to every log-subscribed client. -/
def serverLogBroadcast (sys : Sys) (text : String) : List (Nat × OutMsg) × Bool :=
  logsLoopFrom (.subscribeLogsResponse 0 text) 0 sys.clients

/-- Embedding of `NativeApiServer.handle` (native_api_server.py, lines 326-347): forward a
`state_change` payload to states-subscribed clients, and a `log` event, as a
`SubscribeLogsResponse`, to log-subscribed clients. -/
def serverHandle (sys : Sys) (k : String) (m : PubMsg) :
    List (Nat × OutMsg) × Bool :=
  if k = "state_change" then
    match m with
    | .state resp => statesLoopFrom resp 0 sys.clients
    | _ => ([], false)
  else if k = "log" then
    match m with
    | .logEvt lvl text =>
        logsLoopFrom (.subscribeLogsResponse lvl text) 0 sys.clients
    | _ => ([], false)
  else ([], false)

/-- Embedding of `WebServer.handle` (web_server.py, lines 52-67): on `state_change`, look
the target entity up by the message's key and enqueue its `state_json`; a
missing entity or a failed lookup raises.  On `log`, enqueue the log text. -/
def webHandle (sys : Sys) (k : String) (m : PubMsg) :
    List (String × String) × Bool :=
  if k = "state_change" then
    match pubMsgKey m with
    | none => ([], true)
    | some mk =>
      match getEntityByKeyL sys.entities (mk : Int) with
      | .ok (some e) => ([("state", stateJson e)], false)
      | .ok none => ([], true)
      | .error _ => ([], true)
  else if k = "log" then
    match m with
    | .logEvt _ text => ([("log", text)], false)
    | _ => ([], false)
  else ([], false)

/-- Method `can_handle` per entity: none of the modelled classes overrides the
default of basic_entity.py (lines 155-166), which answers true. -/
def entityCanHandle (_e : PEntity) (_k : String) (_m : PubMsg) : Bool :=
  true

/-- Outcome of a dispatch step: the system state after it, the frames written
(tagged with the receiving connection), whether an exception was raised, and
the indices of the entities whose `handle` was invoked by `Device.publish`
along the way. -/
structure PubOut where
  sys : Sys
  writes : List (Nat × OutMsg)
  raised : Bool
  invoked : List Nat
deriving DecidableEq, Repr

/-- Delivery of a `state_change` publish to the entity at index `i`: a switch's
`handle` sees a message that is not a `SwitchCommandRequest` and does nothing
(switch.py, lines 173-183); the server forwards to states-subscribed clients;
the web server enqueues.  None of these handlers publishes again. -/
def deliverStateAt (sys : Sys) (i : Nat) (resp : OutMsg) : PubOut :=
  match sys.entities.get? i with
  | none => ⟨sys, [], false, []⟩
  | some (.switch _ _ _ _) => ⟨sys, [], false, []⟩
  | some .server =>
    let (ws, r) := serverHandle sys "state_change" (.state resp)
    ⟨sys, ws, r, []⟩
  | some .web =>
    let (q, r) := webHandle sys "state_change" (.state resp)
    ⟨{ sys with webQueue := sys.webQueue ++ q }, [], r, []⟩

/-- Loop of `Device.publish` (device.py, lines 150-154) for a `state_change`
event published by the entity at index `pubIdx`: every other entity whose
`can_handle` answers true gets `handle` invoked, in registry order; an
exception raised by a handler propagates and ends the loop. -/
def publishStateChangeLoop (pubIdx : Nat) (resp : OutMsg) :
    Sys → List Nat → PubOut
  | sys, [] => ⟨sys, [], false, []⟩
  | sys, i :: rest =>
    if i = pubIdx then publishStateChangeLoop pubIdx resp sys rest
    else
      match sys.entities.get? i with
      | none => publishStateChangeLoop pubIdx resp sys rest
      | some e =>
        if entityCanHandle e "state_change" (.state resp) then
          let r := deliverStateAt sys i resp
          if r.raised then ⟨r.sys, r.writes, true, [i]⟩
          else
            let r2 := publishStateChangeLoop pubIdx resp r.sys rest
            ⟨r2.sys, r.writes ++ r2.writes, r2.raised, i :: r2.invoked⟩
        else publishStateChangeLoop pubIdx resp sys rest

/-- The call `Device.publish(publisher, 'state_change', resp)` with the publisher at
index `pubIdx`, as performed by `notify_state_change`. -/
def publishStateChange (sys : Sys) (pubIdx : Nat) (resp : OutMsg) : PubOut :=
  publishStateChangeLoop pubIdx resp sys (List.range sys.entities.length)

/-- The `handle` of the entity at index `i` for a forwarded client request
(`client_request` key): a switch acts on a `SwitchCommandRequest` whose key
matches its own, running `set_state`, which notifies (and so publishes a
`state_change`) only when the value changed; the server and web handlers
match neither `state_change` nor `log` and do nothing. -/
def handleClientRequestAt (sys : Sys) (i : Nat) (m : InMsg) : PubOut :=
  match sys.entities.get? i with
  | none => ⟨sys, [], false, []⟩
  | some (.switch name objectId key state) =>
    match m with
    | .switchCommandRequest mkey mval =>
      if mkey = key then
        let oldState := state
        let sys2 :=
          { sys with entities := sys.entities.set i (.switch name objectId key mval) }
        if mval ≠ oldState then
          publishStateChange sys2 i (.switchStateResponse key mval)
        else ⟨sys2, [], false, []⟩
      else ⟨sys, [], false, []⟩
    | _ => ⟨sys, [], false, []⟩
  | some .server =>
    let (ws, r) := serverHandle sys "client_request" (.cmd m)
    ⟨sys, ws, r, []⟩
  | some .web =>
    let (q, r) := webHandle sys "client_request" (.cmd m)
    ⟨{ sys with webQueue := sys.webQueue ++ q }, [], r, []⟩

/-- Loop of `Device.publish` for a forwarded client request published by the
server at index `pubIdx`. -/
def publishClientRequestLoop (pubIdx : Nat) (m : InMsg) :
    Sys → List Nat → PubOut
  | sys, [] => ⟨sys, [], false, []⟩
  | sys, i :: rest =>
    if i = pubIdx then publishClientRequestLoop pubIdx m sys rest
    else
      match sys.entities.get? i with
      | none => publishClientRequestLoop pubIdx m sys rest
      | some e =>
        if entityCanHandle e "client_request" (.cmd m) then
          let r := handleClientRequestAt sys i m
          if r.raised then ⟨r.sys, r.writes, true, i :: r.invoked⟩
          else
            let r2 := publishClientRequestLoop pubIdx m r.sys rest
            ⟨r2.sys, r.writes ++ r2.writes, r2.raised, (i :: r.invoked) ++ r2.invoked⟩
        else publishClientRequestLoop pubIdx m sys rest

/-- The call `self.device.publish(self, 'client_request', message)`
(native_api_server.py, line 286). -/
def publishClientRequest (sys : Sys) (pubIdx : Nat) (m : InMsg) : PubOut :=
  publishClientRequestLoop pubIdx m sys (List.range sys.entities.length)

/-- Index of the `NativeApiServer` pseudo-entity (the `self` of
`handle_client_request`). -/
def serverIdx (sys : Sys) : Nat :=
  sys.entities.findIdx fun e =>
    match e with
    | .server => true
    | _ => false

/-- Loop of `NativeApiServer.send_all_states` (native_api_server.py, lines
314-324): one state frame per entity whose `build_state_response` is not
`None`, in registry order. -/
def sendAllStatesLoop (sys : Sys) (cIdx : Nat) :
    List PEntity → List (Nat × OutMsg) × Bool
  | [] => ([], false)
  | e :: rest =>
    match buildStateResponse e with
    | none => sendAllStatesLoop sys cIdx rest
    | some m =>
      let (w, r) := writeTo sys cIdx m
      if r then (w, true)
      else
        let (ws, r2) := sendAllStatesLoop sys cIdx rest
        (w ++ ws, r2)

def sendAllStates (sys : Sys) (cIdx : Nat) : List (Nat × OutMsg) × Bool :=
  sendAllStatesLoop sys cIdx sys.entities

/-- Loop of `NativeApiServer.handle_list_entities` (native_api_server.py,
lines 288-302). -/
def listEntitiesLoop (sys : Sys) (cIdx : Nat) :
    List PEntity → List (Nat × OutMsg) × Bool
  | [] => ([], false)
  | e :: rest =>
    match buildListEntitiesResponse e with
    | none => listEntitiesLoop sys cIdx rest
    | some m =>
      let (w, r) := writeTo sys cIdx m
      if r then (w, true)
      else
        let (ws, r2) := listEntitiesLoop sys cIdx rest
        (w ++ ws, r2)

def handleListEntities (sys : Sys) (cIdx : Nat) : List (Nat × OutMsg) × Bool :=
  let (ws, r) := listEntitiesLoop sys cIdx sys.entities
  if r then (ws, true)
  else
    let (w2, r2) := writeTo sys cIdx .listEntitiesDoneResponse
    (ws ++ w2, r2)

/-- Embedding of `NativeApiConnection.handle_next_message` (native_api_server.py, lines
86-108), given an already-parsed message from the connection at `cIdx`: the
server first logs the received message (a write to log-subscribed clients),
then dispatches.  Protocol-level requests are answered directly; everything
else goes through `handle_client_request`, which publishes unrecognized
messages to the entity registry. -/
def processMessage (sys : Sys) (cIdx : Nat) (m : InMsg) : PubOut :=
  let (lws, lr) := serverLogBroadcast sys (msgLogText m)
  if lr then ⟨sys, lws, true, []⟩
  else
    match m with
    | .helloRequest =>
      let (ws, r) := writeTo sys cIdx (.helloResponse 1 10)
      ⟨sys, lws ++ ws, r, []⟩
    | .connectRequest =>
      let (ws, r) := writeTo sys cIdx .connectResponse
      ⟨sys, lws ++ ws, r, []⟩
    | .disconnectRequest =>
      let (ws, r) := writeTo sys cIdx .disconnectResponse
      let sys2 := setClientAt sys cIdx (fun c => { c with writeOk := false })
      ⟨sys2, lws ++ ws, r, []⟩
    | .subscribeLogsRequest lvl =>
      let sys2 := setClientAt sys cIdx (fun c => { c with subLogs := true })
      let (ws, r) := writeTo sys2 cIdx (.subscribeLogsResponse lvl "Subscribed to logs")
      ⟨sys2, lws ++ ws, r, []⟩
    | .pingRequest =>
      let (ws, r) := writeTo sys cIdx .pingResponse
      ⟨sys, lws ++ ws, r, []⟩
    | .subscribeStatesRequest =>
      let sys2 := setClientAt sys cIdx (fun c => { c with subStates := true })
      let (lws2, lr2) := serverLogBroadcast sys2 "Subscribed to states"
      if lr2 then ⟨sys2, lws ++ lws2, true, []⟩
      else
        let (ws, r) := sendAllStates sys2 cIdx
        ⟨sys2, lws ++ lws2 ++ ws, r, []⟩
    | .subscribeHomeassistantServicesRequest => ⟨sys, lws, false, []⟩
    | .subscribeHomeAssistantStatesRequest => ⟨sys, lws, false, []⟩
    | .listEntitiesRequest =>
      let (ws, r) := handleListEntities sys cIdx
      ⟨sys, lws ++ ws, r, []⟩
    | .deviceInfoRequest =>
      let (ws, r) := writeTo sys cIdx (.deviceInfoResponse sys.devName sys.devMac)
      ⟨sys, lws ++ ws, r, []⟩
    | .switchCommandRequest _ _ =>
      let r := publishClientRequest sys (serverIdx sys) m
      ⟨r.sys, lws ++ r.writes, r.raised, r.invoked⟩

/-- Process a sequence of already-parsed messages arriving on one connection,
in order; an exception ends the connection's task and so the processing. -/
def processMessages (sys : Sys) (cIdx : Nat) :
    List InMsg → Sys × List (Nat × OutMsg) × Bool
  | [] => (sys, [], false)
  | m :: rest =>
    let r := processMessage sys cIdx m
    if r.raised then (r.sys, r.writes, true)
    else
      let (sys2, ws, rr) := processMessages r.sys cIdx rest
      (sys2, r.writes ++ ws, rr)

/-- Embedding of `SwitchEntity.set_state` invoked on the registered switch at index `i`
(switch.py, lines 90-101): store the value and, when it changed, publish the
fresh state response as a `state_change`. -/
def sysSetSwitchState (sys : Sys) (i : Nat) (val : Bool) : PubOut :=
  match sys.entities.get? i with
  | some (.switch name objectId key state) =>
    let oldState := state
    let sys2 :=
      { sys with entities := sys.entities.set i (.switch name objectId key val) }
    if val ≠ oldState then publishStateChange sys2 i (.switchStateResponse key val)
    else ⟨sys2, [], false, []⟩
  | _ => ⟨sys, [], false, []⟩

/-- The state frames received by the connection at `cIdx` among a write
list. -/
def stateFramesTo (cIdx : Nat) (ws : List (Nat × OutMsg)) : List OutMsg :=
  (ws.filter fun p => p.1 == cIdx && isStateFrame p.2).map fun p => p.2

/-! ### Byte-level framing and the read loop, from native_api_server.py -/

/-- Modelled from the spec: the external message registry
(`MESSAGE_TYPE_TO_PROTO`, imported from aioesphomeapi), a static mapping from
nonnegative wire type ids to message schemas; `.get` on an unmapped id (in
particular on the decoder's -1 sentinel) answers `None`.  Only the ids of the
request messages the server dispatches on are listed; the claims settled here
depend only on unmapped ids answering `none`. -/
def messageTypeToProto (t : Int) : Option Nat :=
  if t = 1 ∨ t = 3 ∨ t = 5 ∨ t = 7 ∨ t = 9 ∨ t = 11 ∨ t = 20 ∨ t = 28 ∨
     t = 33 ∨ t = 34 ∨ t = 36 ∨ t = 38 then
    some t.toNat
  else none

/-- Embedding of `NativeApiConnection.read_next_message` (native_api_server.py, lines
160-175): read the preamble, length and type varints, drop the frame when the
type is unmapped, else take the payload bytes (`reader.read(length)` returns
at most `length` bytes).  Answers the parsed frame as (type id, payload) and
the unread rest of the source. -/
def readNextMessageB (src : List Nat) : Option (Nat × List Nat) × List Nat :=
  let (_preamble, s1) := readVaruint src
  let (length, s2) := readVaruint s1
  let (mtype, s3) := readVaruint s2
  match messageTypeToProto mtype with
  | none => (none, s3)
  | some tid => (some (tid, s3.take length.toNat), s3.drop length.toNat)

/-- A connection together with the remaining bytes of its read stream (the
empty list is a reader at EOF). -/
structure ConnSys where
  sys : Sys
  cIdx : Nat
  src : List Nat
deriving DecidableEq, Repr

/-- One iteration of the `while True` body of `NativeApiConnection.start`
(native_api_server.py, lines 81-91): read the next frame; when
`read_next_message` answers `None` the body just returns, otherwise the
parsed message is dispatched.  `parse` stands for the external protobuf
payload decoding (`MergeFromString`); the result Bool is true when the body
raised, the only way the enclosing loop can end. -/
def handleNextMessageB (parse : Nat → List Nat → InMsg) (cs : ConnSys) :
    ConnSys × List (Nat × OutMsg) × Bool :=
  let (m?, src2) := readNextMessageB cs.src
  match m? with
  | none => ({ cs with src := src2 }, [], false)
  | some (tid, payload) =>
    let r := processMessage cs.sys cs.cIdx (parse tid payload)
    (⟨r.sys, cs.cIdx, src2⟩, r.writes, r.raised)

/-- Running `n` iterations of the `while True` loop of `NativeApiConnection.start`:
the loop has no break or return, so it ends only when an iteration raises
(third component true). -/
def startSteps (parse : Nat → List Nat → InMsg) :
    Nat → ConnSys → ConnSys × List (Nat × OutMsg) × Bool
  | 0, cs => (cs, [], false)
  | n + 1, cs =>
    let (cs2, ws, r) := handleNextMessageB parse cs
    if r then (cs2, ws, true)
    else
      let (cs3, ws2, r2) := startSteps parse n cs2
      (cs3, ws ++ ws2, r2)

/-! ### SHA-256 (the hashlib.sha256 used by basic_entity.py)

Standard FIPS 180-4 SHA-256 over a byte list, on naturals reduced modulo
2^32.  hashlib is an external library; this is its specified algorithm. -/

def w32 (n : Nat) : Nat := n % 4294967296

def rotr32 (k x : Nat) : Nat := w32 ((x >>> k) ||| (x <<< (32 - k)))

def shaCh (e f g : Nat) : Nat := (e &&& f) ^^^ ((e ^^^ 0xFFFFFFFF) &&& g)

def shaMaj (a b c : Nat) : Nat := (a &&& b) ^^^ (a &&& c) ^^^ (b &&& c)

def bigSigma0 (x : Nat) : Nat := rotr32 2 x ^^^ rotr32 13 x ^^^ rotr32 22 x

def bigSigma1 (x : Nat) : Nat := rotr32 6 x ^^^ rotr32 11 x ^^^ rotr32 25 x

def smallSigma0 (x : Nat) : Nat := rotr32 7 x ^^^ rotr32 18 x ^^^ (x >>> 3)

def smallSigma1 (x : Nat) : Nat := rotr32 17 x ^^^ rotr32 19 x ^^^ (x >>> 10)

def sha256K : List Nat :=
  [1116352408, 1899447441, 3049323471, 3921009573, 961987163,
   1508970993, 2453635748, 2870763221, 3624381080, 310598401,
   607225278, 1426881987, 1925078388, 2162078206, 2614888103,
   3248222580, 3835390401, 4022224774, 264347078, 604807628,
   770255983, 1249150122, 1555081692, 1996064986, 2554220882,
   2821834349, 2952996808, 3210313671, 3336571891, 3584528711,
   113926993, 338241895, 666307205, 773529912, 1294757372,
   1396182291, 1695183700, 1986661051, 2177026350, 2456956037,
   2730485921, 2820302411, 3259730800, 3345764771, 3516065817,
   3600352804, 4094571909, 275423344, 430227734, 506948616,
   659060556, 883997877, 958139571, 1322822218, 1537002063,
   1747873779, 1955562222, 2024104815, 2227730452, 2361852424,
   2428436474, 2756734187, 3204031479, 3329325298]

def sha256H0 : List Nat :=
  [1779033703, 3144134277, 1013904242, 2773480762,
   1359893119, 2600822924, 528734635, 1541459225]

/-- The low `count` bytes of `v`, big-endian. -/
def beBytes : Nat → Nat → List Nat
  | 0, _ => []
  | k + 1, v => beBytes k (v >>> 8) ++ [v &&& 0xFF]

/-- SHA-256 padding: a 0x80 byte, zeros up to 56 mod 64, then the bit length
in 8 big-endian bytes. -/
def sha256Pad (msg : List Nat) : List Nat :=
  let padZeros := (55 + 64 - msg.length % 64) % 64
  msg ++ [0x80] ++ List.replicate padZeros 0 ++ beBytes 8 (msg.length * 8)

/-- Big-endian 32-bit words from bytes. -/
def toWords : List Nat → List Nat
  | a :: b :: c :: d :: rest =>
      ((((a <<< 8) ||| b) <<< 8 ||| c) <<< 8 ||| d) :: toWords rest
  | _ => []

/-- Split into 64-byte blocks; the fuel argument bounds the number of blocks
and is instantiated with the list length, which always suffices. -/
def toBlocksAux : Nat → List Nat → List (List Nat)
  | 0, _ => []
  | _, [] => []
  | fuel + 1, l => l.take 64 :: toBlocksAux fuel (l.drop 64)

def toBlocks (l : List Nat) : List (List Nat) := toBlocksAux l.length l

/-- One step of the message-schedule extension: append word `t`. -/
def scheduleStep (w : List Nat) (t : Nat) : List Nat :=
  w ++ [w32 (smallSigma1 (w.getD (t - 2) 0) + w.getD (t - 7) 0 +
             smallSigma0 (w.getD (t - 15) 0) + w.getD (t - 16) 0)]

/-- Extend the 16 block words to the 64 schedule words. -/
def schedule (w16 : List Nat) : List Nat :=
  List.foldl scheduleStep w16 (List.range' 16 48)

/-- One compression round, on the state `[a, b, c, d, e, f, g, h]`, with one
(round constant, schedule word) pair. -/
def sha256Round (st : List Nat) (kw : Nat × Nat) : List Nat :=
  match st with
  | [a, b, c, d, e, f, g, h] =>
    let t1 := w32 (h + bigSigma1 e + shaCh e f g + kw.1 + kw.2)
    let t2 := w32 (bigSigma0 a + shaMaj a b c)
    [w32 (t1 + t2), a, b, c, w32 (d + t1), e, f, g]
  | _ => st

/-- Compress one 64-byte block into the hash state. -/
def compressBlock (h : List Nat) (block : List Nat) : List Nat :=
  let st := List.foldl sha256Round h (sha256K.zip (schedule (toWords block)))
  (h.zip st).map fun p => w32 (p.1 + p.2)

/-- SHA-256 digest bytes of a byte list. -/
def sha256Bytes (msg : List Nat) : List Nat :=
  let hs := List.foldl compressBlock sha256H0 (toBlocks (sha256Pad msg))
  (hs.map (beBytes 4)).flatten

def hexDigit (n : Nat) : Char :=
  "0123456789abcdef".toList.getD n '0'

/-- The `hexdigest()` of the SHA-256 of a byte list. -/
def sha256Hex (msg : List Nat) : String :=
  ⟨((sha256Bytes msg).map fun b => [hexDigit (b >>> 4), hexDigit (b &&& 0xF)]).flatten⟩

/-- UTF-8 bytes of a character (Python str.encode). -/
def utf8Char (c : Char) : List Nat :=
  let n := c.toNat
  if n < 0x80 then [n]
  else if n < 0x800 then [0xC0 ||| (n >>> 6), 0x80 ||| (n &&& 0x3F)]
  else if n < 0x10000 then
    [0xE0 ||| (n >>> 12), 0x80 ||| ((n >>> 6) &&& 0x3F), 0x80 ||| (n &&& 0x3F)]
  else
    [0xF0 ||| (n >>> 18), 0x80 ||| ((n >>> 12) &&& 0x3F),
     0x80 ||| ((n >>> 6) &&& 0x3F), 0x80 ||| (n &&& 0x3F)]

/-- UTF-8 bytes of a string (Python str.encode). -/
def utf8 (s : String) : List Nat := (s.data.map utf8Char).flatten

/-! ### Object-id and unique-id derivation, from basic_entity.py -/

/-- Python regex `\s` (ASCII whitespace; the names in play are ASCII). -/
def isPySpace (c : Char) : Bool :=
  c = ' ' || c = '\t' || c = '\n' || c = '\x0b' || c = '\x0c' || c = '\r'

/-- Python regex `\w` (ASCII word characters). -/
def isWordChar (c : Char) : Bool :=
  c.isAlphanum || c = '_'

/-- Embedding of `re.sub(r"\s+", "_", ·)`: each maximal whitespace run becomes one
underscore; the flag records whether the previous character was
whitespace. -/
def subSpaces : List Char → Bool → List Char
  | [], _ => []
  | c :: rest, prevSpace =>
    if isPySpace c then
      (if prevSpace then [] else ['_']) ++ subSpaces rest true
    else c :: subSpaces rest false

/-- Derivation of `object_id` from the entity name (basic_entity.py, lines
100-105): lowercase, whitespace runs to `_`, then `re.sub(r"[^\w]", "", ·)`
strips the non-word characters. -/
def deriveObjectId (name : String) : String :=
  ⟨(subSpaces (name.data.map Char.toLower) false).filter isWordChar⟩

/-- The id-bearing attributes of a `BasicEntity`: the constructor stores the
explicit ids (or `None`), and the two property reads memoize their derived
values into these attributes. -/
structure EntityIdState where
  name : String
  assignedObjectId : Option String
  assignedUniqueId : Option String
  domain : String
deriving DecidableEq, Repr

/-- The device identity the unique-id derivation reads. -/
structure DeviceId where
  name : String
  mac : String
deriving DecidableEq, Repr

/-- The `object_id` property (basic_entity.py, lines 90-105): answer the
assigned id, else derive from the name and memoize. -/
def objectIdRead (e : EntityIdState) : String × EntityIdState :=
  match e.assignedObjectId with
  | some o => (o, e)
  | none =>
    let o := deriveObjectId e.name
    (o, { e with assignedObjectId := some o })

/-- The pure value the unique-id derivation computes: the first 16 hex
characters of the SHA-256 over the UTF-8 encodings of device name, device
MAC, object id and domain tag, fed in that order. -/
def uniqueIdOf (devName mac objectId domain : String) : String :=
  (sha256Hex (utf8 devName ++ utf8 mac ++ utf8 objectId ++ utf8 domain)).take 16

/-- The `unique_id` property (basic_entity.py, lines 107-125): answer the
assigned id; else hash the device name, device MAC, `self.object_id` (itself
a memoizing property read) and domain, truncate, memoize and answer. -/
def uniqueIdRead (dev : DeviceId) (e : EntityIdState) : String × EntityIdState :=
  match e.assignedUniqueId with
  | some u => (u, e)
  | none =>
    let (objectId, e1) := objectIdRead e
    let uid := uniqueIdOf dev.name dev.mac objectId e.domain
    (uid, { e1 with assignedUniqueId := some uid })

/-- The system of the subscribe-replay scenario: a device with two switch
entities (keys 1 and 2, in registry order, states `s1` and `s2`) plus the
server and web pseudo-entities that `Device.run` registers after them, and
one freshly accepted, unsubscribed client connection. -/
def c3Sys (s1 s2 : Bool) : Sys :=
  ⟨"test_device", "AC:BC:32:89:0E:C9",
   [.switch "Switch 1" "switch_1" 1 s1, .switch "Switch 2" "switch_2" 2 s2,
    .server, .web],
   [⟨false, false, true⟩], []⟩

/-! ## Theorems -/

theorem varuintLoop_zero : varuintLoop 0 = [] := by
  rw [varuintLoop]
  norm_num

theorem varuintToBytes_128 : varuintToBytes 128 = [128, 1] := by
  rw [varuintToBytes]
  norm_num
  rw [varuintLoop]
  norm_num [Nat.shiftRight_eq_div_pow]
  rw [varuintLoop]
  norm_num [Nat.shiftRight_eq_div_pow, varuintLoop_zero]
  decide

theorem varuintToBytes_16384 : varuintToBytes 16384 = [128, 128, 1] := by
  rw [varuintToBytes]
  norm_num
  rw [varuintLoop]
  norm_num [Nat.shiftRight_eq_div_pow]
  rw [varuintLoop]
  norm_num [Nat.shiftRight_eq_div_pow]
  rw [varuintLoop]
  norm_num [Nat.shiftRight_eq_div_pow, varuintLoop_zero]
  decide

theorem varuintToBytes_2_35 :
    varuintToBytes (2 ^ 35) = [128, 128, 128, 128, 128, 1] := by
  rw [varuintToBytes]
  norm_num
  rw [varuintLoop]
  norm_num [Nat.shiftRight_eq_div_pow]
  rw [varuintLoop]
  norm_num [Nat.shiftRight_eq_div_pow]
  rw [varuintLoop]
  norm_num [Nat.shiftRight_eq_div_pow]
  rw [varuintLoop]
  norm_num [Nat.shiftRight_eq_div_pow]
  rw [varuintLoop]
  norm_num [Nat.shiftRight_eq_div_pow]
  rw [varuintLoop]
  norm_num [Nat.shiftRight_eq_div_pow, varuintLoop_zero]
  decide

/-- C2: decoding the byte sequence produced by the varint encoder returns the
original value and consumes exactly those bytes, for each of 0, 127, 128,
16384 and 2^35. -/
theorem c2_varint_roundtrip :
    readVaruint (varuintToBytes 0) = (0, []) ∧
    readVaruint (varuintToBytes 127) = (127, []) ∧
    readVaruint (varuintToBytes 128) = (128, []) ∧
    readVaruint (varuintToBytes 16384) = (16384, []) ∧
    readVaruint (varuintToBytes (2 ^ 35)) = (2 ^ 35, []) := by
  refine ⟨by decide, by decide, ?_, ?_, ?_⟩
  · rw [varuintToBytes_128]; decide
  · rw [varuintToBytes_16384]; decide
  · rw [varuintToBytes_2_35]; decide

/-- C4, counterexample: the claim predicts that a siren `set_state` call with
the current value publishes zero `state_change` events, but `SirenEntity.set_state`
notifies unconditionally: a siren whose state already is `true`, set to
`true`, publishes exactly one event. -/
theorem c4_counterexample : (sirenSetState 1 true true).2.length = 1 := by
  decide

/-- C4, amended: `SwitchEntity.set_state` publishes zero `state_change`
events when the value equals the current state and exactly one otherwise,
while `SirenEntity.set_state` and `SelectEntity.set_state` publish exactly
one event on every call, including no-op sets. -/
theorem c4_setter_events (key : Nat) (st v : Bool) (sst sv : String)
    (sms : Bool) :
    (switchSetState key st v).2.length = (if v = st then 0 else 1) ∧
    (switchSetState key st v).1 = v ∧
    (sirenSetState key st v).2.length = 1 ∧
    (sirenSetState key st v).1 = v ∧
    (selectSetState key sst sms sv).2.length = 1 ∧
    (selectSetState key sst sms sv).1 = (sv, false) := by
  refine ⟨?_, ?_, ?_, ?_, ?_, ?_⟩ <;>
    simp [switchSetState, sirenSetState, selectSetState] <;>
    by_cases h : v = st <;> simp [h]

/-- C5: the delivery loop of `Device.publish` invokes `handle` on exactly the
registered entities other than the publisher whose `can_handle` accepts, in
registry order — so the event is delivered (subject to `can_handle`) to every
registered entity except the publisher, and the publisher's own `handle` is
never invoked. -/
theorem c5_publish_delivery (entities : List RegEntity)
    (canH : RegEntity → Bool) (publisher : RegEntity) :
    publishTargets entities canH publisher =
      entities.filter (fun e => !(e.eid == publisher.eid) && canH e) ∧
    ∀ e ∈ publishTargets entities canH publisher, e.eid ≠ publisher.eid := by
  have hfil : ∀ entities : List RegEntity,
      publishTargets entities canH publisher =
        entities.filter (fun e => !(e.eid == publisher.eid) && canH e) := by
    intro es
    induction es with
    | nil => simp [publishTargets]
    | cons a rest ih =>
      simp only [publishTargets, List.filter_cons]
      by_cases h : publisher.eid = a.eid
      · have hpred : (!(a.eid == publisher.eid) && canH a) = false := by
          simp [h.symm]
        simp [h, hpred, ih]
      · have hne : (a.eid == publisher.eid) = false := by
          simp
          exact fun h2 => h h2.symm
        by_cases hc : canH a
        · simp [h, hne, hc, ih]
        · simp [h, hne, hc, ih]
  refine ⟨hfil entities, ?_⟩
  intro e he
  rw [hfil entities] at he
  have := List.of_mem_filter he
  simp at this
  exact this.1

/-- Witness for C5 at a concrete publish: a registry of the publisher, a
switch and a binary sensor whose `can_handle` declines; delivery goes exactly
to the switch, which differs from the publisher. -/
theorem c5_publish_delivery_witness :
    publishTargets
      [⟨1, "pub", some 3⟩, ⟨2, "sw", some 1⟩, ⟨3, "bs", some 2⟩]
      (fun e => !(e.objectId == "bs")) ⟨1, "pub", some 3⟩ =
      [⟨2, "sw", some 1⟩] ∧
    (⟨2, "sw", some 1⟩ : RegEntity).eid ≠ (⟨1, "pub", some 3⟩ : RegEntity).eid := by
  have h := c5_publish_delivery
    [⟨1, "pub", some 3⟩, ⟨2, "sw", some 1⟩, ⟨3, "bs", some 2⟩]
    (fun e => !(e.objectId == "bs")) ⟨1, "pub", some 3⟩
  constructor
  · rw [h.1]
    decide
  · exact h.2 ⟨2, "sw", some 1⟩ (by rw [h.1]; decide)

/-- C10, counterexample: on a device with one registered entity, the claim
says `get_entity_by_key (-1)` (a negative key at least `-N`) returns the
entity at position `N + key`; the code instead evaluates `entities[-2]` and
raises `IndexError`. -/
theorem c10_counterexample :
    getEntityByKey ⟨[⟨1, "a", some 1⟩]⟩ (-1) = .error () := by
  rfl

/-- C10, amended: with `N` the number of registered entities,
`get_entity_by_key` returns the entity at index `key - 1` for `1 ≤ key ≤ N`
and `None` for `key > N`; for `-N < key ≤ 0` Python's negative indexing makes
it return the entity at index `N + key - 1` (in particular key 0 yields the
last-registered entity, not `None`); and for `key ≤ -N` the index is out of
range and the call raises `IndexError`. -/
theorem c10_get_entity_by_key (d : DeviceReg) (key : Int) :
    (1 ≤ key ∧ key ≤ d.entities.length →
      getEntityByKey d key = .ok (d.entities.get? (key - 1).toNat)) ∧
    (key > d.entities.length → getEntityByKey d key = .ok none) ∧
    (-(d.entities.length : Int) < key ∧ key ≤ 0 →
      getEntityByKey d key =
        .ok (d.entities.get? (key - 1 + d.entities.length).toNat) ∧
      (key = 0 → getEntityByKey d key = .ok d.entities.getLast?)) ∧
    (key ≤ -(d.entities.length : Int) → getEntityByKey d key = .error ()) := by
  have hN : (0 : Int) ≤ d.entities.length := Int.ofNat_nonneg _
  refine ⟨?_, ?_, ?_, ?_⟩
  · rintro ⟨h1, h2⟩
    have hnat : (key - 1).toNat < d.entities.length := by omega
    rw [getEntityByKey, getEntityByKeyL, if_neg (by omega), pyGet,
      if_pos (by omega), List.get?_eq_get hnat]
  · intro h
    rw [getEntityByKey, getEntityByKeyL, if_pos h]
  · rintro ⟨h1, h2⟩
    have hpos : 0 < d.entities.length := by omega
    have hnat : (key - 1 + d.entities.length).toNat < d.entities.length := by
      omega
    have hmain : getEntityByKey d key =
        .ok (d.entities.get? (key - 1 + d.entities.length).toNat) := by
      rw [getEntityByKey, getEntityByKeyL, if_neg (by omega), pyGet,
        if_neg (by omega), if_pos (by omega), List.get?_eq_get hnat]
    refine ⟨hmain, ?_⟩
    intro h0
    subst h0
    have harith : ((0 : Int) - 1 + d.entities.length).toNat =
        d.entities.length - 1 := by omega
    rw [hmain, harith, List.getLast?_eq_getElem?, ← List.get?_eq_getElem?]
  · intro h
    rcases Nat.eq_zero_or_pos d.entities.length with hz | hpos
    · rw [getEntityByKey, getEntityByKeyL, if_neg (by omega), pyGet,
        if_neg (by omega), if_neg (by omega)]
    · have : ¬ (0 : Int) ≤ key - 1 + d.entities.length := by omega
      rw [getEntityByKey, getEntityByKeyL, if_neg (by omega), pyGet,
        if_neg (by omega), if_neg (by omega)]

/-- Witness for C10 at a concrete two-entity device: each regime of the
amended statement, instantiated. -/
theorem c10_get_entity_by_key_witness :
    getEntityByKey ⟨[⟨1, "a", some 1⟩, ⟨2, "b", some 2⟩]⟩ 1 =
      .ok (([⟨1, "a", some 1⟩, ⟨2, "b", some 2⟩] : List RegEntity).get? 0) ∧
    getEntityByKey ⟨[⟨1, "a", some 1⟩, ⟨2, "b", some 2⟩]⟩ 3 = .ok none ∧
    getEntityByKey ⟨[⟨1, "a", some 1⟩, ⟨2, "b", some 2⟩]⟩ 0 =
      .ok ([⟨1, "a", some 1⟩, ⟨2, "b", some 2⟩] : List RegEntity).getLast? ∧
    getEntityByKey ⟨[⟨1, "a", some 1⟩, ⟨2, "b", some 2⟩]⟩ (-2) = .error () := by
  refine ⟨?_, ?_, ?_, ?_⟩
  · simpa using
      (c10_get_entity_by_key ⟨[⟨1, "a", some 1⟩, ⟨2, "b", some 2⟩]⟩ 1).1
        (by norm_num)
  · exact (c10_get_entity_by_key ⟨[⟨1, "a", some 1⟩, ⟨2, "b", some 2⟩]⟩ 3).2.1
      (by norm_num)
  · exact ((c10_get_entity_by_key ⟨[⟨1, "a", some 1⟩, ⟨2, "b", some 2⟩]⟩
      0).2.2.1 (by norm_num)).2 rfl
  · exact (c10_get_entity_by_key ⟨[⟨1, "a", some 1⟩, ⟨2, "b", some 2⟩]⟩
      (-2)).2.2.2 (by norm_num)

/-- Helper for C1: adding entities whose object ids are fresh for the device
and pairwise distinct succeeds, appends them in order, and numbers them with
consecutive keys continuing from the device's entity count. -/
theorem addAllE_ok (es : List RegEntity) :
    ∀ d : DeviceReg,
    (∀ e ∈ es, ∀ x ∈ d.entities, x.objectId ≠ e.objectId) →
    (es.map fun e => e.objectId).Nodup →
    ∃ d', addAllE d es = .ok d' ∧
      d'.entities.map (fun e => e.key) =
        d.entities.map (fun e => e.key) ++
          (List.range' (d.entities.length + 1) es.length).map some ∧
      d'.entities.map (fun e => e.objectId) =
        d.entities.map (fun e => e.objectId) ++ es.map fun e => e.objectId := by
  induction es with
  | nil => intro d _ _; exact ⟨d, rfl, by simp, by simp⟩
  | cons e rest ih =>
    intro d hdisj hnodup
    have hfil : d.entities.filter (fun x => x.objectId == e.objectId) = [] := by
      apply List.filter_eq_nil_iff.mpr
      intro x hx
      simpa using hdisj e (by simp) x hx
    have hstep : addEntity d e =
        { device := ⟨d.entities ++ [{ e with key := some (d.entities.length + 1) }]⟩,
          entity := { e with key := some (d.entities.length + 1) },
          error := none } := by
      rw [addEntity]
      simp [hfil]
    have hnodup' : (rest.map fun e => e.objectId).Nodup :=
      (List.nodup_cons.mp (by simpa using hnodup)).2
    have hfresh : e.objectId ∉ rest.map fun e => e.objectId :=
      (List.nodup_cons.mp (by simpa using hnodup)).1
    have hdisj' : ∀ e2 ∈ rest,
        ∀ x ∈ d.entities ++ [{ e with key := some (d.entities.length + 1) }],
        x.objectId ≠ e2.objectId := by
      intro e2 he2 x hx
      rcases List.mem_append.mp hx with hx | hx
      · exact hdisj e2 (by simp [he2]) x hx
      · have hxe : x.objectId = e.objectId := by
          rcases List.mem_singleton.mp hx with rfl
          rfl
        rw [hxe]
        intro hcontra
        exact hfresh (hcontra ▸ List.mem_map_of_mem (fun e => e.objectId) he2)
    obtain ⟨d', h1, h2, h3⟩ :=
      ih ⟨d.entities ++ [{ e with key := some (d.entities.length + 1) }]⟩
        hdisj' hnodup'
    refine ⟨d', ?_, ?_, ?_⟩
    · rw [addAllE, hstep]
      exact h1
    · rw [h2]
      simp only [List.map_append, List.length_append, List.map_cons,
        List.length_cons, List.map_nil]
      rw [List.range'_succ]
      simp [List.append_assoc]
    · rw [h3]
      simp [List.append_assoc]

/-- C1: a sequence of `add_entity` calls with pairwise distinct object ids
registers all entities with keys `1..N` in insertion order (each key is the
prior count plus one); an `add_entity` whose entity's object id collides with
a registered one raises `ValueError` and leaves the device's entity list
exactly as it was. -/
theorem c1_add_entity (es : List RegEntity) (d : DeviceReg) (e : RegEntity) :
    ((es.map fun e => e.objectId).Nodup →
      ∃ d', addAllE ⟨[]⟩ es = .ok d' ∧
        d'.entities.map (fun e => e.key) = (List.range' 1 es.length).map some ∧
        d'.entities.map (fun e => e.objectId) = es.map fun e => e.objectId) ∧
    ((∃ x ∈ d.entities, x.objectId = e.objectId) →
      (addEntity d e).error.isSome ∧ (addEntity d e).device = d) := by
  constructor
  · intro hnodup
    obtain ⟨d', h1, h2, h3⟩ := addAllE_ok es ⟨[]⟩ (by simp) hnodup
    exact ⟨d', h1, by simpa using h2, by simpa using h3⟩
  · rintro ⟨x, hx, hxe⟩
    have hmem : x ∈ d.entities.filter (fun y => y.objectId == e.objectId) :=
      List.mem_filter.mpr ⟨hx, by simp [hxe]⟩
    have hlen : 0 < (d.entities.filter
        (fun y => y.objectId == e.objectId)).length :=
      List.length_pos_of_mem hmem
    rw [addEntity]
    simp [if_pos hlen]

/-- Witness for C1 at two concrete adds and one concrete collision. -/
theorem c1_add_entity_witness :
    (∃ d', addAllE ⟨[]⟩ [⟨10, "a", none⟩, ⟨11, "b", none⟩] = .ok d' ∧
      d'.entities.map (fun e => e.key) = (List.range' 1 2).map some ∧
      d'.entities.map (fun e => e.objectId) = ["a", "b"]) ∧
    ((addEntity ⟨[⟨10, "a", some 1⟩]⟩ ⟨11, "a", none⟩).error.isSome ∧
      (addEntity ⟨[⟨10, "a", some 1⟩]⟩ ⟨11, "a", none⟩).device =
        ⟨[⟨10, "a", some 1⟩]⟩) := by
  constructor
  · have h := (c1_add_entity [⟨10, "a", none⟩, ⟨11, "b", none⟩]
      ⟨[]⟩ ⟨0, "", none⟩).1 (by decide)
    simpa using h
  · exact (c1_add_entity [] ⟨[⟨10, "a", some 1⟩]⟩ ⟨11, "a", none⟩).2
      ⟨⟨10, "a", some 1⟩, by simp, rfl⟩

/-- C6, evaluated at the failing input: with the byte source exhausted (the
reader at EOF), every `_read_varuint` answers the -1 sentinel, the unmapped
type id makes `read_next_message` answer `None`, and `handle_next_message`
returns without raising, closing, or writing — so the `while True` loop of
`NativeApiConnection.start`, which has no break and ends only on an
exception, spins forever: after any number of iterations it has produced no
writes, not terminated, and left the connection state unchanged.  The claim
(and the specification) require the read loop to terminate here. -/
theorem c6_read_loop_never_ends_on_eof (parse : Nat → List Nat → InMsg)
    (sys : Sys) (cIdx n : Nat) :
    startSteps parse n ⟨sys, cIdx, []⟩ = (⟨sys, cIdx, []⟩, [], false) := by
  induction n with
  | zero => rfl
  | succ k ih =>
    have hstep : handleNextMessageB parse ⟨sys, cIdx, []⟩ =
        (⟨sys, cIdx, []⟩, [], false) := rfl
    rw [startSteps, hstep]
    simp [ih]

/-- Helper for C7: the `state_change` write loop of `NativeApiServer.handle`,
arriving at a subscribed client whose write fails after a prefix of clients
whose subscribed members all write successfully, delivers exactly to the
subscribed prefix members and then raises. -/
theorem statesLoopFrom_fail (m : OutMsg) (c : Client) (post : List Client)
    (hsub : c.subStates = true) (hfail : c.writeOk = false) :
    ∀ (pre : List Client) (i : Nat),
    (∀ x ∈ pre, x.subStates → x.writeOk) →
    statesLoopFrom m i (pre ++ c :: post) =
      (((List.enumFrom i pre).filter fun p => p.2.subStates).map
        fun p => (p.1, m), true) := by
  intro pre
  induction pre with
  | nil =>
    intro i _
    simp [statesLoopFrom, hsub, hfail]
  | cons x rest ih =>
    intro i hpre
    have heq := ih (i + 1) (fun y hy => hpre y (by simp [hy]))
    by_cases hx : x.subStates
    · have hok : x.writeOk := hpre x (by simp) hx
      simp [statesLoopFrom, hx, hok, heq, List.enumFrom]
    · simp [statesLoopFrom, hx, heq, List.enumFrom]

/-- C7, counterexample: two states-subscribed clients, the first with a
failing transport; the `state_change` broadcast of `NativeApiServer.handle`
delivers nothing — in particular the second, healthy, subscribed client does
not receive the frame — and the write error propagates. -/
theorem c7_counterexample :
    serverHandle ⟨"d", "m", [], [⟨false, true, false⟩, ⟨false, true, true⟩], []⟩
      "state_change" (.state (.switchStateResponse 1 true)) = ([], true) := by
  rfl

/-- C7, amended: a transport write failure during the `state_change`
broadcast is not isolated: the loop has no per-client exception handling, so
the frame reaches exactly the subscribed clients that precede the first
failing subscribed client in iteration order, no client after it is served,
and the exception propagates out of the broadcast. -/
theorem c7_broadcast_aborts_on_failure (sys : Sys) (pre post : List Client)
    (c : Client) (resp : OutMsg) (hcl : sys.clients = pre ++ c :: post)
    (hpre : ∀ x ∈ pre, x.subStates → x.writeOk)
    (hsub : c.subStates = true) (hfail : c.writeOk = false) :
    serverHandle sys "state_change" (.state resp) =
      (((List.enumFrom 0 pre).filter fun p => p.2.subStates).map
        fun p => (p.1, resp), true) := by
  rw [serverHandle]
  simp only [if_pos rfl]
  rw [hcl]
  exact statesLoopFrom_fail resp c post hsub hfail pre 0 hpre

/-- Witness for C7's amended statement: with a healthy subscribed client
before the failing one and another after it, exactly the first client is
served and the error propagates. -/
theorem c7_broadcast_aborts_on_failure_witness :
    serverHandle ⟨"d", "m", [],
        [⟨false, true, true⟩, ⟨false, true, false⟩, ⟨false, true, true⟩], []⟩
      "state_change" (.state (.switchStateResponse 2 false)) =
      ([(0, .switchStateResponse 2 false)], true) := by
  have h := c7_broadcast_aborts_on_failure
    ⟨"d", "m", [],
      [⟨false, true, true⟩, ⟨false, true, false⟩, ⟨false, true, true⟩], []⟩
    [⟨false, true, true⟩] [⟨false, true, true⟩] ⟨false, true, false⟩
    (.switchStateResponse 2 false) rfl (by decide) rfl rfl
  simpa using h

/-- C8, counterexample: on a device with one switch (key 1) plus the server
and web pseudo-entities, a `SwitchCommandRequest` with the unmatched key 5 is
published to the registry, and `Device.publish` does invoke `handle` on the
switch (index 0) and on the web server (index 2) — only the publishing server
(index 1) is skipped.  The claim's "no entity's handle fires" is false; the
handlers are no-ops, but they do fire. -/
theorem c8_counterexample :
    (processMessage ⟨"d", "m", [.switch "Sw" "sw" 1 false, .server, .web], [], []⟩
      0 (.switchCommandRequest 5 true)).invoked = [0, 2] := by
  rfl

/-- Helper for C8: publishing a switch command whose key matches no registered
switch entity leaves the system unchanged, writes nothing and raises
nothing, whatever the iteration index list. -/
theorem publishClientRequestLoop_unmatched (k : Nat) (v : Bool) :
    ∀ (idxs : List Nat) (sys : Sys) (pubIdx : Nat),
    (∀ e ∈ sys.entities, ∀ name objectId st, e ≠ .switch name objectId k st) →
    (publishClientRequestLoop pubIdx (.switchCommandRequest k v) sys idxs).sys = sys ∧
    (publishClientRequestLoop pubIdx (.switchCommandRequest k v) sys idxs).writes = [] ∧
    (publishClientRequestLoop pubIdx (.switchCommandRequest k v) sys idxs).raised = false := by
  intro idxs
  induction idxs with
  | nil => intro sys pubIdx _; exact ⟨rfl, rfl, rfl⟩
  | cons i rest ih =>
    intro sys pubIdx hkeys
    by_cases hip : i = pubIdx
    · simpa [publishClientRequestLoop, hip] using ih sys pubIdx hkeys
    · rcases hget : sys.entities[i]? with _ | e
      · simpa [publishClientRequestLoop, hip, hget] using ih sys pubIdx hkeys
      · have hmem : e ∈ sys.entities := by
          have h2 : sys.entities.get? i = some e := by
            rw [List.get?_eq_getElem?]; exact hget
          exact List.get?_mem h2
        have hr : handleClientRequestAt sys i (.switchCommandRequest k v) =
            ⟨sys, [], false, []⟩ := by
          rcases e with ⟨name, objectId, key, st⟩ | _ | _
          · have hne : k ≠ key := by
              intro hk
              exact hkeys _ hmem name objectId st (by rw [hk])
            simp [handleClientRequestAt, hget, hne]
          · simp [handleClientRequestAt, hget, serverHandle]
          · simp [handleClientRequestAt, hget, webHandle]
        simpa [publishClientRequestLoop, hip, hget, entityCanHandle, hr]
          using ih sys pubIdx hkeys

/-- Helper: a log broadcast over clients that all write successfully does not
raise, and every frame it writes is the broadcast message itself. -/
theorem logsLoopFrom_ok (m : OutMsg) :
    ∀ (cs : List Client) (i : Nat), (∀ c ∈ cs, c.writeOk) →
    (logsLoopFrom m i cs).2 = false ∧
    ∀ w ∈ (logsLoopFrom m i cs).1, w.2 = m := by
  intro cs
  induction cs with
  | nil => intro i _; exact ⟨rfl, by simp [logsLoopFrom]⟩
  | cons c rest ih =>
    intro i hok
    have hc := hok c (by simp)
    obtain ⟨h1, h2⟩ := ih (i + 1) (fun y hy => hok y (by simp [hy]))
    by_cases hcl : c.subLogs
    · refine ⟨?_, ?_⟩
      · simp [logsLoopFrom, hcl, hc, h1]
      · intro w hw
        simp only [logsLoopFrom, hcl, if_true, hc] at hw
        rcases List.mem_cons.mp hw with h | h
        · rw [h]
        · exact h2 w h
    · exact ⟨by simp [logsLoopFrom, hcl, h1], by
        intro w hw
        simp only [logsLoopFrom, hcl, if_false] at hw
        exact h2 w hw⟩

/-- C8, amended: an entity command whose key matches no registered switch is
dispatched through `Device.publish`, which does invoke the non-publisher
entities' `handle` methods (gated on `can_handle`), but each of them is a
no-op: the system state — entities, their states, subscriptions, web queue —
is unchanged, no exception is raised, the only frames written are the routine
receipt-log frames to log-subscribed clients, and in particular no state
frame and no response frame reaches any client. -/
theorem c8_unmatched_key_noop (sys : Sys) (cIdx k : Nat) (v : Bool)
    (hkeys : ∀ e ∈ sys.entities, ∀ name objectId st, e ≠ .switch name objectId k st)
    (hok : ∀ c ∈ sys.clients, c.writeOk) :
    (processMessage sys cIdx (.switchCommandRequest k v)).sys = sys ∧
    (processMessage sys cIdx (.switchCommandRequest k v)).raised = false ∧
    (∀ w ∈ (processMessage sys cIdx (.switchCommandRequest k v)).writes,
      ∃ lvl text, w.2 = .subscribeLogsResponse lvl text) ∧
    stateFramesTo cIdx (processMessage sys cIdx (.switchCommandRequest k v)).writes = [] := by
  obtain ⟨hlr, hlw⟩ :=
    logsLoopFrom_ok (.subscribeLogsResponse 0 (msgLogText (.switchCommandRequest k v)))
      sys.clients 0 hok
  obtain ⟨hp1, hp2, hp3⟩ :=
    publishClientRequestLoop_unmatched k v
      (List.range sys.entities.length) sys (serverIdx sys) hkeys
  rcases hls : serverLogBroadcast sys (msgLogText (.switchCommandRequest k v))
    with ⟨lws, lr⟩
  have hls2 : logsLoopFrom
      (.subscribeLogsResponse 0 (msgLogText (.switchCommandRequest k v)))
      0 sys.clients = (lws, lr) := hls
  have hlr2 : lr = false := by
    rw [hls2] at hlr
    exact hlr
  have hlw2 : ∀ w ∈ lws, w.2 =
      OutMsg.subscribeLogsResponse 0 (msgLogText (.switchCommandRequest k v)) := by
    intro w hw
    apply hlw
    rw [hls2]
    exact hw
  have hproc : processMessage sys cIdx (.switchCommandRequest k v) =
      ⟨(publishClientRequest sys (serverIdx sys) (.switchCommandRequest k v)).sys,
        lws ++ (publishClientRequest sys (serverIdx sys) (.switchCommandRequest k v)).writes,
        (publishClientRequest sys (serverIdx sys) (.switchCommandRequest k v)).raised,
        (publishClientRequest sys (serverIdx sys) (.switchCommandRequest k v)).invoked⟩ := by
    rw [processMessage, hls]
    simp [hlr2]
  rw [hproc]
  refine ⟨by simpa [publishClientRequest] using hp1,
    by simpa [publishClientRequest] using hp3, ?_, ?_⟩
  · intro w hw
    rcases List.mem_append.mp hw with h | h
    · exact ⟨0, msgLogText (.switchCommandRequest k v), hlw2 w h⟩
    · rw [publishClientRequest, hp2] at h
      simp at h
  · rw [stateFramesTo]
    have : ∀ w ∈ lws ++ (publishClientRequest sys (serverIdx sys)
        (.switchCommandRequest k v)).writes,
        ¬(w.1 == cIdx && isStateFrame w.2) = true := by
      intro w hw
      rcases List.mem_append.mp hw with h | h
      · have := hlw2 w h
        simp [this, isStateFrame]
      · rw [publishClientRequest, hp2] at h
        simp at h
    rw [List.filter_eq_nil_iff.mpr this]
    rfl

/-- Witness for C8's amended statement at a concrete device and command. -/
theorem c8_unmatched_key_noop_witness :
    (processMessage ⟨"d", "m", [.switch "Sw" "sw" 1 false, .server, .web],
        [⟨false, false, true⟩], []⟩ 0 (.switchCommandRequest 9 true)).sys =
      ⟨"d", "m", [.switch "Sw" "sw" 1 false, .server, .web],
        [⟨false, false, true⟩], []⟩ ∧
    (processMessage ⟨"d", "m", [.switch "Sw" "sw" 1 false, .server, .web],
        [⟨false, false, true⟩], []⟩ 0 (.switchCommandRequest 9 true)).raised =
      false := by
  refine ?_
  have h := c8_unmatched_key_noop
    ⟨"d", "m", [.switch "Sw" "sw" 1 false, .server, .web],
      [⟨false, false, true⟩], []⟩ 0 9 true ?_ (by decide)
  · exact ⟨h.1, h.2.1⟩
  · intro e he name objectId st
    simp only [List.mem_cons, List.not_mem_nil, or_false] at he
    rcases he with rfl | rfl | rfl
    · simp
    · simp
    · simp

/-- C9: for an entity with no explicit unique id, the first `unique_id` read
returns exactly the first 16 hex characters of the SHA-256 over (device name,
device MAC, object id, domain tag) — a value determined solely by that tuple —
and the value is memoized: any later read, under any device state (in
particular after the device is renamed), returns the same value.  That the
derived id depends on the device name read before memoization is exhibited at
a concrete tuple: two device names yield distinct ids. -/
theorem c9_unique_id (dev dev2 : DeviceId) (e : EntityIdState)
    (h : e.assignedUniqueId = none) :
    (uniqueIdRead dev e).1 =
      uniqueIdOf dev.name dev.mac (objectIdRead e).1 e.domain ∧
    (uniqueIdRead dev2 (uniqueIdRead dev e).2).1 = (uniqueIdRead dev e).1 ∧
    uniqueIdOf "device_a" "AC:BC:32:89:0E:C9" "motion" "binary_sensor" ≠
      uniqueIdOf "device_b" "AC:BC:32:89:0E:C9" "motion" "binary_sensor" := by
  refine ⟨?_, ?_, by decide⟩
  · rw [uniqueIdRead, h]
  · rcases hobj : objectIdRead e with ⟨oid, e1⟩
    have h1 : uniqueIdRead dev e =
        (uniqueIdOf dev.name dev.mac oid e.domain,
          { e1 with
            assignedUniqueId := some (uniqueIdOf dev.name dev.mac oid e.domain) }) := by
      rw [uniqueIdRead, h, hobj]
    rw [h1]
    simp [uniqueIdRead]

/-- Witness for C9: a concrete entity with no explicit unique id, read under
one device identity and re-read after a device rename. -/
theorem c9_unique_id_witness :
    (uniqueIdRead ⟨"test_device", "AC:BC:32:89:0E:C9"⟩
        ⟨"Motion", none, none, "binary_sensor"⟩).1 =
      uniqueIdOf "test_device" "AC:BC:32:89:0E:C9"
        (objectIdRead ⟨"Motion", none, none, "binary_sensor"⟩).1 "binary_sensor" ∧
    (uniqueIdRead ⟨"renamed_device", "AC:BC:32:89:0E:C9"⟩
        (uniqueIdRead ⟨"test_device", "AC:BC:32:89:0E:C9"⟩
          ⟨"Motion", none, none, "binary_sensor"⟩).2).1 =
      (uniqueIdRead ⟨"test_device", "AC:BC:32:89:0E:C9"⟩
        ⟨"Motion", none, none, "binary_sensor"⟩).1 := by
  have h := c9_unique_id ⟨"test_device", "AC:BC:32:89:0E:C9"⟩
    ⟨"renamed_device", "AC:BC:32:89:0E:C9"⟩
    ⟨"Motion", none, none, "binary_sensor"⟩ rfl
  exact ⟨h.1, h.2.1⟩

/-- Helper for C3: a ping from the scenario's client (states-subscribed, not
log-subscribed, healthy transport) is answered with a pong and changes
nothing. -/
theorem processMessage_ping (sys : Sys)
    (hc : sys.clients = [⟨false, true, true⟩]) :
    processMessage sys 0 .pingRequest = ⟨sys, [(0, .pingResponse)], false, []⟩ := by
  rw [processMessage]
  simp [serverLogBroadcast, hc, logsLoopFrom, writeTo]

/-- Helper for C3: any number of pings from that client yields only pong
frames and leaves the system unchanged. -/
theorem processMessages_pings (n : Nat) :
    ∀ sys : Sys, sys.clients = [⟨false, true, true⟩] →
    processMessages sys 0 (List.replicate n .pingRequest) =
      (sys, List.replicate n (0, OutMsg.pingResponse), false) := by
  induction n with
  | zero => intro sys _; rfl
  | succ k ih =>
    intro sys hc
    rw [List.replicate_succ, processMessages, processMessage_ping sys hc]
    simp [ih sys hc, List.replicate_succ]

/-- Helper for C3: pong frames are not state frames. -/
theorem stateFrames_pings (n : Nat) :
    stateFramesTo 0 (List.replicate n (0, OutMsg.pingResponse)) = [] := by
  induction n with
  | zero => rfl
  | succ k ih =>
    rw [List.replicate_succ]
    rw [stateFramesTo] at ih ⊢
    simp only [List.filter_cons, isStateFrame, Bool.and_false, Bool.false_eq_true,
      if_false]
    exact ih

/-- C3: on the two-switch device, a client that sends Hello, then Connect,
then SubscribeStates receives exactly two state frames — one per entity whose
`build_state_response` is not `None`, in registry key order (the server and
web pseudo-entities contribute none) — with no exception; any number of
subsequent pings yields no further state frame; and after the handshake a
switch `set_state` with the current value broadcasts no frame at all, while
one with a changed value broadcasts exactly that switch's fresh state
frame. -/
theorem c3_subscribe_states_replay (s1 s2 v : Bool) (n : Nat) :
    stateFramesTo 0 (processMessages (c3Sys s1 s2) 0
        [.helloRequest, .connectRequest, .subscribeStatesRequest]).2.1 =
      [.switchStateResponse 1 s1, .switchStateResponse 2 s2] ∧
    (processMessages (c3Sys s1 s2) 0
        [.helloRequest, .connectRequest, .subscribeStatesRequest]).2.2 = false ∧
    stateFramesTo 0 (processMessages
        (processMessages (c3Sys s1 s2) 0
          [.helloRequest, .connectRequest, .subscribeStatesRequest]).1 0
        (List.replicate n .pingRequest)).2.1 = [] ∧
    stateFramesTo 0 (sysSetSwitchState
        (processMessages (c3Sys s1 s2) 0
          [.helloRequest, .connectRequest, .subscribeStatesRequest]).1 0 v).writes =
      (if v = s1 then [] else [.switchStateResponse 1 v]) ∧
    stateFramesTo 0 (sysSetSwitchState
        (processMessages (c3Sys s1 s2) 0
          [.helloRequest, .connectRequest, .subscribeStatesRequest]).1 1 v).writes =
      (if v = s2 then [] else [.switchStateResponse 2 v]) := by
  have hping : ∀ sys : Sys, sys.clients = [⟨false, true, true⟩] →
      stateFramesTo 0
        (processMessages sys 0 (List.replicate n .pingRequest)).2.1 = [] := by
    intro sys hc
    rw [processMessages_pings n sys hc]
    exact stateFrames_pings n
  cases s1 <;> cases s2 <;>
    exact ⟨by decide, by decide, hping _ (by decide),
      by cases v <;> decide, by cases v <;> decide⟩

end Aioesphome
